import Mathlib

/-!
Verification development for the offline help-center website generator
(`generate_offline_website.py`).  The generator loads three JSON record
collections (categories, sections, articles), builds two lookup indexes,
and emits a static HTML tree by string concatenation.  The definitions
below are a shallow embedding of that program: records become structures,
the two index-building loops become folds over function-valued maps, the
stable `sorted` calls become `List.insertionSort` (a stable sort, hence
extensionally identical to Python's stable sort for the same comparator),
and each page renderer becomes a Lean function producing the page string.
-/

namespace HelpCenter

/-- Category record as loaded from `categories.json`.  The generator reads
the fields `id`, `name` and (optionally, via `.get('description', '')`)
`description`. -/
structure Category where
  id : Nat
  name : String
  description : Option String
deriving DecidableEq, Repr

/-- Section record as loaded from `sections.json`: fields `id`, `name`,
optional `description`, and the foreign key `category_id`. -/
structure Section where
  id : Nat
  name : String
  description : Option String
  category_id : Nat
deriving DecidableEq, Repr

/-- Article record as loaded from `articles.json`: fields `id`, `title`,
optional `body`, the foreign key `section_id`, and `updated_at`. -/
structure Article where
  id : Nat
  title : String
  body : Option String
  section_id : Nat
  updated_at : String
deriving DecidableEq, Repr

/-- A Python dict keyed by integer ids, modelled extensionally: `none`
means the key is absent. -/
abbrev MapN (α : Type) := Nat → Option α

/-- One iteration of the first indexing loop (lines 35-39 of the source)
restricted to its effect on `sections_by_category`: ensure the bucket for
`section.category_id` exists and append the section to it. -/
def sbcStep (m : MapN (List Section)) (s : Section) : MapN (List Section) :=
  fun c => if c = s.category_id then some ((m s.category_id).getD [] ++ [s]) else m c

/-- The `sections_by_category` dict after the loop at lines 35-39. -/
def sections_by_category (sections : List Section) : MapN (List Section) :=
  sections.foldl sbcStep (fun _ => none)

/-- Effect of the first loop on `articles_by_section` (line 41-42):
`self.articles_by_section[section_id] = []` for each section. -/
def absInitStep (m : MapN (List Article)) (s : Section) : MapN (List Article) :=
  fun c => if c = s.id then some [] else m c

/-- One iteration of the second indexing loop (lines 44-47): append the
article to its bucket only when the key is already present
(`if section_id in self.articles_by_section`). -/
def absStep (m : MapN (List Article)) (a : Article) : MapN (List Article) :=
  if (m a.section_id).isSome then
    fun c => if c = a.section_id then some ((m a.section_id).getD [] ++ [a]) else m c
  else m

/-- The `articles_by_section` dict after both loops (lines 35-47). -/
def articles_by_section (sections : List Section) (articles : List Article) :
    MapN (List Article) :=
  articles.foldl absStep (sections.foldl absInitStep (fun _ => none))

/-- Lexicographic comparison of char lists by code point: the order Python
uses for `str` comparison (`sorted` keys, `<=`).  It is case-sensitive. -/
def charListLe : List Char → List Char → Bool
  | [], _ => true
  | _ :: _, [] => false
  | a :: as, b :: bs => if a < b then true else if b < a then false else charListLe as bs

/-- Python string `<=`: code-point lexicographic comparison. -/
def py_le (a b : String) : Bool := charListLe a.data b.data

/-- Comparator of the homepage `sorted(..., key=lambda x: x['updated_at'],
reverse=True)` call (line 994): article `a` may precede `b` when
`b.updated_at <= a.updated_at` (descending; ties keep input order because
the sort is stable). -/
def updated_ge (a b : Article) : Prop := py_le b.updated_at a.updated_at = true

/-- Comparator of the articles-index `sorted(..., key=lambda x: x['title'])`
call (line 1379): ascending by title. -/
def title_le (a b : Article) : Prop := py_le a.title b.title = true

/-- Comparator of the videos page `sorted(video_files)` call (line 1258). -/
def file_le (a b : String) : Prop := py_le a b = true

instance : DecidableRel updated_ge := fun a b => by
  unfold updated_ge; infer_instance

instance : DecidableRel title_le := fun a b => by
  unfold title_le; infer_instance

instance : DecidableRel file_le := fun a b => by
  unfold file_le; infer_instance

/-- The homepage "Popular Articles" list (line 994):
`sorted(self.articles, key=lambda x: x['updated_at'], reverse=True)[:6]`.
Python's sort is stable; `List.insertionSort` is stable with the same
comparator, so it computes the same list. -/
def recent_articles (articles : List Article) : List Article :=
  (articles.insertionSort updated_ge).take 6

/-- The articles-index traversal order (line 1379):
`sorted(self.articles, key=lambda x: x['title'])`. -/
def articles_index_order (articles : List Article) : List Article :=
  articles.insertionSort title_le

/-- Whether `pat` is a prefix of `s`, on char lists. -/
def isPrefL : List Char → List Char → Bool
  | [], _ => true
  | _ :: _, [] => false
  | p :: ps, c :: cs => p == c && isPrefL ps cs

/-- Number of positions of `s` at which `pat` occurs (overlaps counted). -/
def countOccurL (pat : List Char) : List Char → Nat
  | [] => if isPrefL pat [] then 1 else 0
  | c :: cs => (if isPrefL pat (c :: cs) then 1 else 0) + countOccurL pat cs

/-- Number of occurrences of the pattern `pat` in the string `s`. -/
def countOccur (s pat : String) : Nat := countOccurL pat.data s.data

/-- The string `s` has at least one occurrence of the substring `pat`. -/
def ContainsSub (s pat : String) : Prop := 1 ≤ countOccur s pat

/-- Concatenation of a list of string fragments, as in the Python
templates (successive `+=` on `html_content`). -/
def strConcat (l : List String) : String := l.foldr (fun a b => a ++ b) ""

/-- The `path_prefix` variable of `get_header_html` and `get_footer_html`
(lines 877 and 925): empty for root pages, one parent step otherwise. -/
def pathPfx (is_root : Bool) : String := if is_root then "" else "../"

/-- An `href="<p><target>"` attribute as emitted by the header template. -/
def hrefAttr (p target : String) : String := "href=\"" ++ p ++ target ++ "\""

/-- A `src="<p><target>"` attribute as emitted by the templates. -/
def srcAttr (p target : String) : String := "src=\"" ++ p ++ target ++ "\""

/-- The `search_html` fragment (lines 882-885), emitted when
`include_search` is true. -/
def search_box : String := "\n                <div class=\"search-container\">\n                    <input type=\"search\" class=\"search-input\" placeholder=\"Search articles...\" id=\"searchInput\">\n                </div>"

/-- The shared page header shell, `get_header_html` (lines 874-921). -/
def get_header_html (title description : String) (is_root include_search : Bool) : String :=
  strConcat [
    "\n<!DOCTYPE html>\n<html lang=\"en\">\n<head>\n    <meta charset=\"UTF-8\">\n    <meta name=\"viewport\" content=\"width=device-width, initial-scale=1.0\">\n    <title>",
    title,
    " - Userology Help Center</title>\n    <link rel=\"stylesheet\" ",
    hrefAttr (pathPfx is_root) "css/style.css",
    ">\n    <link rel=\"icon\" type=\"image/png\" ",
    hrefAttr (pathPfx is_root) "logo.png",
    ">\n</head>\n<body>\n    <header class=\"header\">\n        <div class=\"container\">\n            <div class=\"header-content\">\n                <div class=\"header-branding\">\n                    <img ",
    srcAttr (pathPfx is_root) "logo.png",
    " alt=\"Userology Logo\" class=\"header-logo\">\n                    <div class=\"header-text\">\n                        <h1>Userology Help Center</h1>\n                        <p>",
    description,
    "</p>\n                    </div>\n                </div>",
    if include_search then search_box else "",
    "\n            </div>\n        </div>\n    </header>\n\n    <nav class=\"nav\">\n        <div class=\"container\">\n            <ul>\n                <li><a ",
    hrefAttr (pathPfx is_root) "index.html",
    ">Home</a></li>\n                <li><a ",
    hrefAttr (pathPfx is_root) "categories.html",
    ">Browse Topics</a></li>\n                <li><a ",
    hrefAttr (pathPfx is_root) "articles.html",
    ">All Articles</a></li>\n                <li><a ",
    hrefAttr (pathPfx is_root) "videos.html",
    ">Videos</a></li>\n            </ul>\n        </div>\n    </nav>"
  ]

/-- The deferred script tag of the footer (line 926). -/
def script_tag (p : String) : String :=
  strConcat ["\n    <script ", srcAttr p "js/main.js", "></script>"]

/-- The shared page footer shell, `get_footer_html` (lines 923-934). -/
def get_footer_html (is_root include_script : Bool) : String :=
  strConcat [
    "\n    <footer class=\"footer\">\n        <div class=\"container\">\n            <p>© 2025 Userology. All rights reserved.</p>\n        </div>\n    </footer>",
    if include_script then script_tag (pathPfx is_root) else "",
    "\n</body>\n</html>"
  ]

/-- The `next((s for s in self.sections if s['id'] == sid), None)` lookup
used by the homepage, article pages and the articles index. -/
def find_section (ss : List Section) (sid : Nat) : Option Section :=
  ss.find? (fun s => s.id == sid)

/-- The `next((c for c in self.categories if c['id'] == cid), None)` lookup. -/
def find_category (cs : List Category) (cid : Nat) : Option Category :=
  cs.find? (fun c => c.id == cid)

/-- The breadcrumb text `{category or Unknown} → {section or Unknown}` as
rendered by `create_article_page` (line 1166) and `create_articles_index`
(line 1387): unresolved foreign keys degrade to the literal label
`Unknown`. -/
def breadcrumb (cs : List Category) (ss : List Section) (a : Article) : String :=
  let s := find_section ss a.section_id
  let c := match s with
    | some sec => find_category cs sec.category_id
    | none => none
  (match c with | some cat => cat.name | none => "Unknown")
    ++ " → "
    ++ (match s with | some sec => sec.name | none => "Unknown")

/-- The `section_icons` table of `create_homepage` (and, duplicated
verbatim, of `create_categories_index`). -/
def section_icons : List (String × String) :=
  [("Study Setup", "📝"),
   ("Interview Plan", "💬"),
   ("Study Settings", "⚙️"),
   ("Launch", "🚀"),
   ("Responses and Recordings", "🎥"),
   ("Settings and Admin", "👥"),
   ("Results and Reports", "📊")]

/-- The `section_descriptions` table of `create_homepage` (duplicated in
`create_categories_index`). -/
def section_descriptions : List (String × String) :=
  [("Study Setup", "Learn how to create and configure your research studies"),
   ("Interview Plan", "Set up discussion guides and interview sections"),
   ("Study Settings", "Configure AI moderator, devices, permissions, and more"),
   ("Launch", "Recruit participants and preview your study"),
   ("Responses and Recordings", "Manage recordings, clips, and participant responses"),
   ("Settings and Admin", "Manage your team and organization settings"),
   ("Results and Reports", "Analyze qualitative and quantitative research data")]

/-- One topic card of the homepage topic grid (lines 972-984); the same
template is used by `create_categories_index` (lines 1341-1353). -/
def topic_card (abs : MapN (List Article)) (s : Section) : String :=
  let articles_count := ((abs s.id).getD []).length
  let icon := (section_icons.lookup s.name).getD "📄"
  let descr := (section_descriptions.lookup s.name).getD (s.description.getD "")
  "\n                    <a href=\"sections/section_" ++ toString s.id
    ++ ".html\" class=\"topic-card\">\n                        <div class=\"topic-icon\">"
    ++ icon ++ "</div>\n                        <h3>" ++ s.name
    ++ "</h3>\n                        <p class=\"topic-description\">" ++ descr
    ++ "</p>\n                        <div class=\"topic-meta\">" ++ toString articles_count
    ++ " " ++ (if articles_count = 1 then "article" else "articles")
    ++ "</div>\n                    </a>\n"

/-- One "Popular Articles" card of the homepage (lines 995-1005). -/
def home_article_card (ss : List Section) (a : Article) : String :=
  "\n                    <a href=\"articles/article_" ++ toString a.id
    ++ ".html\" class=\"article-card\">\n                        <h3>" ++ a.title
    ++ "</h3>\n                        <div class=\"article-meta\">\n                            "
    ++ (match find_section ss a.section_id with | some s => s.name | none => "Unknown")
    ++ "\n                        </div>\n                    </a>\n"

/-- The hard-coded homepage footer (lines 1013-1021): the script tag is
present only inside an HTML comment. -/
def homepage_footer : String := "\n    <footer class=\"footer\">\n        <div class=\"container\">\n            <p>© 2025 Userology. All rights reserved.</p>\n        </div>\n    </footer>\n\n    <!-- <script src=\"js/main.js\"></script> -->\n</body>\n</html>"

/-- The content of `index.html`, `create_homepage` (lines 936-1024). -/
def create_homepage (ss : List Section) (as : List Article) : String :=
  get_header_html "Home" "Get help with Userology" true true
    ++ "\n    <div class=\"container\">\n        <main class=\"main\">\n            <div class=\"content\">\n                <h1>Welcome to Userology Help Center</h1>\n                <p>Find comprehensive guides, tutorials, and answers to help you get the most out of Userology.</p>\n\n                <h2>Browse by Topic</h2>\n                <div class=\"topic-grid\">\n"
    ++ strConcat (ss.map (topic_card (articles_by_section ss as)))
    ++ "\n                </div>\n\n                <h2>Popular Articles</h2>\n                <div class=\"article-grid\">\n"
    ++ strConcat ((recent_articles as).map (home_article_card ss))
    ++ "\n                </div>\n            </div>\n        </main>\n    </div>\n"
    ++ homepage_footer

/-- One sidebar entry of a category page (line 1041). -/
def category_section_li (s : Section) : String :=
  "                    <li><a href=\"../sections/section_" ++ toString s.id
    ++ ".html\">" ++ s.name ++ "</a></li>\n"

/-- One content row of a category page (lines 1055-1064). -/
def category_section_row (abs : MapN (List Article)) (s : Section) : String :=
  "\n                    <div class=\"article-item\">\n                        <h3><a href=\"../sections/section_"
    ++ toString s.id ++ ".html\">" ++ s.name
    ++ "</a></h3>\n                        <div class=\"article-meta\">\n                            "
    ++ toString ((abs s.id).getD []).length
    ++ " articles\n                        </div>\n                    </div>\n"

/-- The content of `categories/category_<id>.html`, `create_category_page`
(lines 1026-1076). -/
def create_category_page (ss : List Section) (as : List Article) (c : Category) : String :=
  let secs := (sections_by_category ss c.id).getD []
  get_header_html c.name "Browse help topics organized by category" false true
    ++ "\n    <div class=\"container\">\n        <main class=\"main\">\n            <aside class=\"sidebar\">\n                <h3>Sections in "
    ++ c.name ++ "</h3>\n                <ul>\n"
    ++ strConcat (secs.map category_section_li)
    ++ "\n                </ul>\n            </aside>\n\n            <div class=\"content\">\n                <h1>"
    ++ c.name ++ "</h1>\n                <p>" ++ c.description.getD ""
    ++ "</p>\n                \n                <h2>Sections</h2>\n                <div class=\"article-list\">\n"
    ++ strConcat (secs.map (category_section_row (articles_by_section ss as)))
    ++ "\n                </div>\n            </div>\n        </main>\n    </div>\n"
    ++ get_footer_html false false

/-- One sidebar entry of a section page (line 1094). -/
def section_article_li (a : Article) : String :=
  "                    <li><a href=\"../articles/article_" ++ toString a.id
    ++ ".html\">" ++ a.title ++ "</a></li>\n"

/-- One content row of a section page (lines 1108-1116). -/
def section_article_row (a : Article) : String :=
  "\n                    <div class=\"article-item\">\n                        <h3><a href=\"../articles/article_"
    ++ toString a.id ++ ".html\">" ++ a.title
    ++ "</a></h3>\n                        <div class=\"article-meta\">\n                            Updated: "
    ++ a.updated_at.take 10
    ++ "\n                        </div>\n                    </div>\n"

/-- The article list a section page displays:
`self.articles_by_section.get(section['id'], [])` (line 1080). -/
def section_page_articles (ss : List Section) (as : List Article) (s : Section) : List Article :=
  (articles_by_section ss as s.id).getD []

/-- The content of `sections/section_<id>.html`, `create_section_page`
(lines 1078-1133). -/
def create_section_page (ss : List Section) (as : List Article) (s : Section) : String :=
  let arts := section_page_articles ss as s
  get_header_html s.name "Your complete guide to using Userology" false false
    ++ "\n    <div class=\"container\">\n        <main class=\"main\">\n            <aside class=\"sidebar\">\n                <h3>Articles in "
    ++ s.name ++ "</h3>\n                <ul>\n"
    ++ strConcat (arts.map section_article_li)
    ++ "\n                </ul>\n            </aside>\n\n            <div class=\"content\">\n                <h1>"
    ++ s.name
    ++ "</h1>\n                \n                \n                <h2>Articles</h2>\n                <div class=\"article-list\">\n"
    ++ strConcat (arts.map section_article_row)
    ++ "\n                </div>\n            </div>\n        </main>\n    </div>\n\n    <footer class=\"footer\">\n        <div class=\"container\">\n            <p>© 2025 Userology. All rights reserved.</p>\n        </div>\n    </footer>\n</body>\n</html>"

/-- The content of `articles/article_<id>.html`, `create_article_page`
(lines 1135-1186).  Unresolved category or section references render as
no sidebar link and an `Unknown` breadcrumb slot. -/
def create_article_page (cs : List Category) (ss : List Section) (a : Article) : String :=
  let s := find_section ss a.section_id
  let c := match s with
    | some sec => find_category cs sec.category_id
    | none => none
  get_header_html a.title "Your complete guide to using Userology" false false
    ++ "\n    <div class=\"container\">\n        <main class=\"main\">\n            <aside class=\"sidebar\">\n                <h3>Navigation</h3>\n                <ul>\n                    <li><a href=\"../index.html\">← Back to Home</a></li>\n"
    ++ (match c with
        | some cat => "                    <li><a href=\"../categories/category_" ++ toString cat.id ++ ".html\">← " ++ cat.name ++ "</a></li>\n"
        | none => "")
    ++ (match s with
        | some sec => "                    <li><a href=\"../sections/section_" ++ toString sec.id ++ ".html\">← " ++ sec.name ++ "</a></li>\n"
        | none => "")
    ++ "\n                </ul>\n            </aside>\n\n            <div class=\"content\">\n                <h1>"
    ++ a.title ++ "</h1>\n                <div class=\"article-meta\">\n                    "
    ++ breadcrumb cs ss a ++ " | \n                    Updated: " ++ a.updated_at.take 10
    ++ "\n                </div>\n                \n                <div class=\"article-content\">\n                    "
    ++ a.body.getD ""
    ++ "\n                </div>\n            </div>\n        </main>\n    </div>\n\n    <footer class=\"footer\">\n        <div class=\"container\">\n            <p>© 2025 Userology. All rights reserved.</p>\n        </div>\n    </footer>\n</body>\n</html>"

/-- The content of `categories.html`, `create_categories_index`
(lines 1306-1365): the homepage topic grid again, plus the active footer
script tag. -/
def create_categories_index (ss : List Section) (as : List Article) : String :=
  get_header_html "Browse Topics" "Browse help topics organized by category" true true
    ++ "\n    <div class=\"container\">\n        <main class=\"main\">\n            <div class=\"content\">\n                <h1>Browse Topics</h1>\n                <p>Find articles organized by topic to help you get started quickly.</p>\n\n                <div class=\"topic-grid\">\n"
    ++ strConcat (ss.map (topic_card (articles_by_section ss as)))
    ++ "\n                </div>\n            </div>\n        </main>\n    </div>\n"
    ++ get_footer_html true true

/-- One card of the articles index (lines 1383-1390). -/
def index_article_card (cs : List Category) (ss : List Section) (a : Article) : String :=
  "\n                    <a href=\"articles/article_" ++ toString a.id
    ++ ".html\" class=\"article-card\">\n                        <h3>" ++ a.title
    ++ "</h3>\n                        <div class=\"article-meta\">\n                            "
    ++ breadcrumb cs ss a
    ++ "\n                        </div>\n                    </a>\n"

/-- Leading fragment of the articles-index footer (lines 1398-1400), up to
the interpolated `datetime.now().strftime('%Y-%m-%d %H:%M:%S')` value. -/
def articles_index_foot_pre : String := "\n    <footer class=\"footer\">\n        <div class=\"container\">\n            <p>Offline Help Center - Generated on "

/-- Trailing fragment of the articles-index footer (lines 1400-1404). -/
def articles_index_foot_post : String := "</p>\n        </div>\n    </footer>\n</body>\n</html>"

/-- The articles-index footer with the generation timestamp `now` embedded
(lines 1398-1404).  This is the only page content that reads the clock. -/
def articles_index_footer (now : String) : String :=
  articles_index_foot_pre ++ now ++ articles_index_foot_post

/-- The content of `articles.html`, `create_articles_index`
(lines 1367-1407).  `now` is the formatted `datetime.now()` value. -/
def create_articles_index (cs : List Category) (ss : List Section) (as : List Article)
    (now : String) : String :=
  get_header_html "All Articles" "Browse all help articles" true true
    ++ "\n    <div class=\"container\">\n        <main class=\"main\">\n            <div class=\"content\">\n                <h1>All Articles</h1>\n                <div class=\"article-grid\">\n"
    ++ strConcat ((articles_index_order as).map (index_article_card cs ss))
    ++ "\n                </div>\n            </div>\n        </main>\n    </div>\n"
    ++ articles_index_footer now

/-- One entry of the `videos` list built by `create_videos_page`
(lines 1260-1264). -/
structure Video where
  filename : String
  title : String
  description : String
deriving DecidableEq, Repr

/-- The `video_descriptions` table (lines 1228-1256). -/
def video_descriptions : List (String × String) :=
  [("Creating your study on Userology.mp4", "Learn how to create and set up a new study on the Userology platform."),
   ("AI Discussion Guides.mp4", "Understand how AI-powered discussion guides enhance your usability testing."),
   ("AI Moderator Configuration.mp4", "Configure the AI moderator settings for your research sessions."),
   ("AI Transcript.mp4", "Learn how to access and utilize AI-generated transcripts from your sessions."),
   ("Ask AI Feature.mp4", "Discover how to use the Ask AI feature to get insights from your research data."),
   ("Configuring Devices and Browsers.mp4", "Set up device and browser requirements for your study participants."),
   ("Downloading and Creating Clips.mp4", "Learn how to download recordings and create clips from your research sessions."),
   ("Duplicating a study on userology.mp4", "Quickly duplicate an existing study to save time on setup."),
   ("External Recruitment.mp4", "Learn how to recruit participants from external sources for your studies."),
   ("Launching Your Study and Recruiting Participants.mp4", "Complete guide to launching your study and recruiting participants."),
   ("Live Product Section.mp4", "Set up and configure the live product testing section in your study."),
   ("Managing Team and Inviting Members.mp4", "Add and manage team members in your Userology organization."),
   ("Organization settings.mp4", "Configure your organization settings and preferences."),
   ("Personalizing Your Study.mp4", "Customize your study with branding and personalization options."),
   ("Preview Session.mp4", "Preview how your study will appear to participants before launching."),
   ("Prototype Section.mp4", "Set up prototype testing sections for your design research."),
   ("QnA results.mp4", "Analyze and interpret Q&A results from your research sessions."),
   ("Recording permission settings.mp4", "Configure recording permissions and privacy settings for your studies."),
   ("Recordings page.mp4", "Navigate and manage all your session recordings in one place."),
   ("Recruit Participant Yourself.mp4", "Learn how to recruit and invite your own participants to studies."),
   ("Sign In Feature.mp4", "Set up sign-in requirements for your study participants."),
   ("Time estimation feature.mp4", "Use the time estimation feature to plan your study duration."),
   ("Types of responses .mp4", "Understand the different types of responses you can collect in your studies."),
   ("Understanding Quantitative Results .mp4", "Learn how to analyze and interpret quantitative data from your research."),
   ("Uploading a Legal Document to Your Study.mp4", "Add consent forms and legal documents to your study setup."),
   ("Usability score.mp4", "Understand and interpret usability scores from your testing sessions."),
   ("Voice Interview Section.mp4", "Set up and conduct voice interviews as part of your research studies.")]

/-- Python `str.endswith`: suffix test on char lists. -/
def str_ends_with (s suf : String) : Bool :=
  isPrefL suf.data (s.data.drop (s.data.length - suf.data.length))

/-- Python `os.path.splitext(f)[0]`: everything before the final dot,
except that a basename consisting only of leading dots before that final
dot is not split (so `.mp4` alone stays whole). -/
def splitext_root (f : String) : String :=
  let cs := f.data
  let dots := (List.range cs.length).filter (fun i => cs.getD i ' ' == '.')
  match dots.getLast? with
  | none => f
  | some i => if (cs.take i).all (fun ch => ch == '.') then f else { data := cs.take i }

/-- The `videos` list of `create_videos_page` (lines 1216-1264): `none`
models a missing `videos` directory (`os.path.exists` false), `some files`
models its directory listing.  Only `.mp4` entries survive the filter at
line 1225, and cards are produced in sorted filename order. -/
def build_videos (listing : Option (List String)) : List Video :=
  match listing with
  | none => []
  | some files =>
    let video_files := files.filter (fun f => str_ends_with f ".mp4")
    (video_files.insertionSort file_le).map (fun f =>
      { filename := f
        title := splitext_root f
        description := (video_descriptions.lookup f).getD "" })

/-- One video card (lines 1279-1292). -/
def video_card (v : Video) : String :=
  "\n                    <div class=\"video-card\">\n                        <div class=\"video-thumbnail\">\n                            <video controls preload=\"metadata\">\n                                <source src=\"videos/"
    ++ v.filename
    ++ "\" type=\"video/mp4\">\n                                Your browser does not support the video tag.\n                            </video>\n                        </div>\n                        <div class=\"video-info\">\n                            <h3>"
    ++ v.title ++ "</h3>\n                            <p class=\"video-description\">"
    ++ v.description
    ++ "</p>\n                        </div>\n                    </div>\n"

/-- The content of `videos.html`, `create_videos_page` (lines 1216-1304).
It depends only on the videos directory listing, never on the loaded
Category/Section/Article records. -/
def create_videos_page (listing : Option (List String)) : String :=
  get_header_html "Video Tutorials" "Watch video tutorials to learn how to use Userology" true true
    ++ "\n    <div class=\"container\">\n        <main class=\"main\">\n            <div class=\"content\">\n                <h1>Video Tutorials</h1>\n                <p>Watch step-by-step video guides to help you master Userology features. Click on any video to watch.</p>\n\n                <div class=\"video-grid\">\n"
    ++ strConcat ((build_videos listing).map video_card)
    ++ "\n                </div>\n            </div>\n        </main>\n    </div>\n"
    ++ get_footer_html true true

/-- The generator's loaded state: the three record collections, plus the
listing of the optional local `videos` directory (`none` when absent). -/
structure Input where
  categories : List Category
  sections : List Section
  articles : List Article
  videosDir : Option (List String)

/-- The files written by one run of `create_all_pages` (lines 1188-1214),
as `(relative path, content)` pairs in write order: CSS, JS, homepage,
category pages, section pages, article pages, then the three index pages.
The CSS and JS payloads are fixed strings independent of the input; they
are taken as parameters `css` and `js`.  `now` is the formatted wall-clock
time read by `create_articles_index`. -/
def run_pipeline (css js : String) (inp : Input) (now : String) :
    List (String × String) :=
  [("css/style.css", css),
   ("js/main.js", js),
   ("index.html", create_homepage inp.sections inp.articles)]
  ++ inp.categories.map (fun c =>
      ("categories/category_" ++ toString c.id ++ ".html",
       create_category_page inp.sections inp.articles c))
  ++ inp.sections.map (fun s =>
      ("sections/section_" ++ toString s.id ++ ".html",
       create_section_page inp.sections inp.articles s))
  ++ inp.articles.map (fun a =>
      ("articles/article_" ++ toString a.id ++ ".html",
       create_article_page inp.categories inp.sections a))
  ++ [("categories.html", create_categories_index inp.sections inp.articles),
      ("articles.html", create_articles_index inp.categories inp.sections inp.articles now),
      ("videos.html", create_videos_page inp.videosDir)]

/-- The three `load_json` calls of `__init__` (lines 19-21, 49-52).  Each
argument models one input file: `Except.error e` when opening or parsing
it raises (missing, unreadable, or malformed file), `Except.ok records`
otherwise.  The Python code has no try/except, so the first raised
exception aborts the constructor. -/
def load_data (catF : Except String (List Category)) (secF : Except String (List Section))
    (artF : Except String (List Article)) :
    Except String (List Category × List Section × List Article) := do
  let categories ← catF
  let sections ← secF
  let articles ← artF
  pure (categories, sections, articles)

/-- The whole program `main` (lines 1409-1414): construct the generator
(loading the three files) and render every page.  A load failure
propagates as an uncaught error and no output is produced. -/
def main_run (css js : String) (catF : Except String (List Category))
    (secF : Except String (List Section)) (artF : Except String (List Article))
    (vids : Option (List String)) (now : String) :
    Except String (List (String × String)) := do
  let d ← load_data catF secF artF
  pure (run_pipeline css js ⟨d.1, d.2.1, d.2.2, vids⟩ now)

/-- The seven page types the renderer emits. -/
inductive PageKind where
  | homepage
  | categoryPage
  | sectionPage
  | articlePage
  | categoriesIndex
  | articlesIndex
  | videosIndex
deriving DecidableEq, Repr

/-- The `is_root` argument each page renderer passes to `get_header_html`
and `get_footer_html` (call sites at lines 938, 1030, 1073, 1083, 1143,
1266, 1301, 1308, 1362, 1369): root-level pages pass `True`, pages written
into a subdirectory pass `False`. -/
def page_is_root : PageKind → Bool
  | .homepage => true
  | .categoryPage => false
  | .sectionPage => false
  | .articlePage => false
  | .categoriesIndex => true
  | .articlesIndex => true
  | .videosIndex => true

/-- The four navigation targets of the shared header (lines 915-918). -/
def nav_targets : List String :=
  ["index.html", "categories.html", "articles.html", "videos.html"]

/-- The active (uncommented) script tag emitted by `get_footer_html` for
root pages with `include_script=True` (line 926 with empty path prefix). -/
def active_script_tag : String := "<script src=\"js/main.js\"></script>"

/-- The commented-out script tag hard-coded in the homepage footer
(line 1019). -/
def commented_script_tag : String := "<!-- <script src=\"js/main.js\"></script> -->"

/-- Erase the content of `articles.html` in a pipeline output listing,
keeping every other file intact; used to compare two runs up to the
articles-index timestamp. -/
def mask_articles (f : String × String) : String × String :=
  if f.1 = "articles.html" then (f.1, "") else f

/-- An input with no records and no videos directory. -/
def empty_input : Input :=
  { categories := [], sections := [], articles := [], videosDir := none }

/-- Concrete sample category (from the example scenario in the spec). -/
def wCategory : Category := { id := 1, name := "Setup", description := none }

/-- Concrete sample section. -/
def wSection : Section :=
  { id := 10, name := "Basics", description := none, category_id := 1 }

/-- Concrete sample article belonging to `wSection`. -/
def wArticle1 : Article :=
  { id := 100, title := "B Article", body := none, section_id := 10,
    updated_at := "2024-01-02T00:00:00Z" }

/-- Second concrete sample article belonging to `wSection`. -/
def wArticle2 : Article :=
  { id := 101, title := "A Article", body := none, section_id := 10,
    updated_at := "2024-02-01T00:00:00Z" }

/-- Concrete article whose `section_id` matches no loaded section. -/
def wDangling : Article :=
  { id := 102, title := "Ghost", body := none, section_id := 99,
    updated_at := "2024-03-01T00:00:00Z" }

theorem foldl_sbcStep (ss : List Section) :
    ∀ (m : MapN (List Section)) (c : Nat),
      ss.foldl sbcStep m c =
        if ss.any (fun s => s.category_id == c) then
          some ((m c).getD [] ++ ss.filter (fun s => s.category_id == c))
        else m c := by
  induction ss with
  | nil => intro m c; simp
  | cons s ss ih =>
    intro m c
    rw [List.foldl_cons, ih]
    by_cases h : s.category_id = c
    · subst h
      by_cases hany : ss.any (fun t => t.category_id == s.category_id) = true
      · simp [sbcStep, hany, List.append_assoc]
      · have hfil : ss.filter (fun t => t.category_id == s.category_id) = [] :=
          List.filter_eq_nil_iff.mpr
            (List.any_eq_false.mp (Bool.eq_false_iff.mpr hany))
        simp [sbcStep, hany, hfil]
    · have hp : (s.category_id == c) = false := by simp [h]
      simp [sbcStep, hp, Ne.symm h]

/-- Characterization of `sections_by_category`: the bucket for a category
id exists exactly when some loaded section carries it, and then consists
of the matching sections in input order. -/
theorem sections_by_category_eq (ss : List Section) (c : Nat) :
    sections_by_category ss c =
      if ss.any (fun s => s.category_id == c) then
        some (ss.filter (fun s => s.category_id == c))
      else none := by
  unfold sections_by_category
  rw [foldl_sbcStep]
  by_cases h : ss.any (fun s => s.category_id == c) = true <;> simp [h]

theorem foldl_absInitStep (ss : List Section) :
    ∀ (m : MapN (List Article)) (c : Nat),
      ss.foldl absInitStep m c =
        if ss.any (fun s => s.id == c) then some [] else m c := by
  induction ss with
  | nil => intro m c; simp
  | cons s ss ih =>
    intro m c
    rw [List.foldl_cons, ih]
    by_cases h : s.id = c
    · subst h
      by_cases hany : ss.any (fun t => t.id == s.id) = true
      · simp [absInitStep, hany]
      · simp [absInitStep, hany]
    · have hp : (s.id == c) = false := by simp [h]
      simp [absInitStep, hp, Ne.symm h]

theorem foldl_absStep (as : List Article) :
    ∀ (m : MapN (List Article)) (c : Nat),
      as.foldl absStep m c =
        match m c with
        | some l => some (l ++ as.filter (fun a => a.section_id == c))
        | none => none := by
  induction as with
  | nil => intro m c; cases h : m c <;> simp [h]
  | cons a as ih =>
    intro m c
    rw [List.foldl_cons, ih]
    by_cases hk : (m a.section_id).isSome = true
    · obtain ⟨l0, hl0⟩ := Option.isSome_iff_exists.mp hk
      by_cases h : a.section_id = c
      · subst h
        simp [absStep, hk, hl0, List.append_assoc]
      · have hp : (a.section_id == c) = false := by simp [h]
        simp only [absStep, hk, if_true]
        rw [if_neg (Ne.symm h)]
        cases hmc : m c <;> simp [hmc, hp]
    · have hnone : m a.section_id = none := Option.not_isSome_iff_eq_none.mp hk
      by_cases h : a.section_id = c
      · subst h
        simp [absStep, hk, hnone]
      · have hp : (a.section_id == c) = false := by simp [h]
        simp only [absStep, hk, if_false]
        cases hmc : m c <;> simp [hmc, hp]

/-- Characterization of `articles_by_section`: the keys are exactly the
loaded section ids, and each bucket lists the matching articles in input
order; an article whose `section_id` is no section id lands nowhere. -/
theorem articles_by_section_eq (ss : List Section) (as : List Article) (c : Nat) :
    articles_by_section ss as c =
      if ss.any (fun s => s.id == c) then
        some (as.filter (fun a => a.section_id == c))
      else none := by
  unfold articles_by_section
  rw [foldl_absStep, foldl_absInitStep]
  by_cases h : ss.any (fun s => s.id == c) = true <;> simp [h]

theorem charListLe_total : ∀ a b : List Char, charListLe a b = true ∨ charListLe b a = true
  | [], _ => Or.inl rfl
  | _ :: _, [] => Or.inr rfl
  | a :: as, b :: bs => by
    rcases lt_trichotomy a b with h | h | h
    · left; simp [charListLe, h]
    · subst h
      rcases charListLe_total as bs with ih | ih
      · left; simp [charListLe, ih]
      · right; simp [charListLe, ih]
    · right; simp [charListLe, h]

theorem charListLe_trans :
    ∀ a b c : List Char, charListLe a b = true → charListLe b c = true →
      charListLe a c = true
  | [], _, _, _, _ => rfl
  | _ :: _, [], _, hab, _ => by cases hab
  | _ :: _, _ :: _, [], _, hbc => by cases hbc
  | a :: as, b :: bs, c :: cs, hab, hbc => by
    by_cases h1 : a < b
    · by_cases h2 : b < c
      · simp [charListLe, lt_trans h1 h2]
      · by_cases h3 : c < b
        · simp [charListLe, h2, h3] at hbc
        · have : b = c := le_antisymm (not_lt.mp h3) (not_lt.mp h2)
          subst this
          simp [charListLe, h1]
    · by_cases h1' : b < a
      · simp [charListLe, h1, h1'] at hab
      · have hba : a = b := le_antisymm (not_lt.mp h1') (not_lt.mp h1)
        subst hba
        simp only [charListLe, if_neg (lt_irrefl a)] at hab
        by_cases h2 : a < c
        · simp [charListLe, h2]
        · by_cases h3 : c < a
          · simp [charListLe, h2, h3] at hbc
          · have : a = c := le_antisymm (not_lt.mp h3) (not_lt.mp h2)
            subst this
            simp only [charListLe, if_neg (lt_irrefl a)] at hbc
            simp only [charListLe, if_neg (lt_irrefl a)]
            exact charListLe_trans as bs cs hab hbc

theorem py_le_total (a b : String) : py_le a b = true ∨ py_le b a = true :=
  charListLe_total a.data b.data

theorem py_le_trans {a b c : String} (h1 : py_le a b = true) (h2 : py_le b c = true) :
    py_le a c = true :=
  charListLe_trans a.data b.data c.data h1 h2

theorem isPrefL_refl : ∀ l : List Char, isPrefL l l = true
  | [] => rfl
  | c :: cs => by simp [isPrefL, isPrefL_refl cs]

theorem isPrefL_append (pat : List Char) :
    ∀ (s t : List Char), isPrefL pat s = true → isPrefL pat (s ++ t) = true := by
  induction pat with
  | nil => intro s t _; rfl
  | cons p ps ih =>
    intro s t h
    cases s with
    | nil => cases h
    | cons c cs =>
      simp only [isPrefL, Bool.and_eq_true] at h
      simp only [List.cons_append, isPrefL, Bool.and_eq_true]
      exact ⟨h.1, ih cs t h.2⟩

theorem countOccurL_nil_le (pat b : List Char) :
    countOccurL pat [] ≤ countOccurL pat b := by
  cases pat with
  | nil =>
    induction b with
    | nil => exact le_refl _
    | cons c cs ih =>
      simp only [countOccurL, isPrefL, if_true]
      omega
  | cons p ps => simp [countOccurL, isPrefL]

theorem countOccurL_append_right (pat a b : List Char) :
    countOccurL pat b ≤ countOccurL pat (a ++ b) := by
  induction a with
  | nil => simp
  | cons c cs ih =>
    simp only [List.cons_append, countOccurL, List.append_eq]
    omega

theorem countOccurL_append_left (pat a b : List Char) :
    countOccurL pat a ≤ countOccurL pat (a ++ b) := by
  induction a with
  | nil => simpa using countOccurL_nil_le pat b
  | cons c cs ih =>
    simp only [List.cons_append, countOccurL, List.append_eq]
    by_cases h : isPrefL pat (c :: cs) = true
    · have h2 : isPrefL pat (c :: (cs ++ b)) = true := by
        have := isPrefL_append pat (c :: cs) b h
        simpa using this
      simp only [h, h2, if_true]
      omega
    · simp only [h, Bool.false_eq_true, if_false]
      omega

theorem containsSub_self (s : String) : ContainsSub s s := by
  unfold ContainsSub countOccur
  cases h : s.data with
  | nil => simp [countOccurL, isPrefL]
  | cons c cs =>
    simp only [countOccurL, isPrefL_refl, if_true]
    omega

theorem ContainsSub.appL {s pat : String} (h : ContainsSub s pat) (a : String) :
    ContainsSub (a ++ s) pat := by
  unfold ContainsSub countOccur at *
  rw [String.data_append]
  exact le_trans h (countOccurL_append_right pat.data a.data s.data)

theorem ContainsSub.appR {s pat : String} (h : ContainsSub s pat) (b : String) :
    ContainsSub (s ++ b) pat := by
  unfold ContainsSub countOccur at *
  rw [String.data_append]
  exact le_trans h (countOccurL_append_left pat.data s.data b.data)



theorem containsSub_concat_of (l : List String) (s pat : String)
    (hs : s ∈ l) (h : ContainsSub s pat) : ContainsSub (strConcat l) pat := by
  induction l with
  | nil => cases hs
  | cons a rest ih =>
    rcases List.mem_cons.mp hs with rfl | hm
    · exact h.appR (strConcat rest)
    · exact (ih hm).appL a

theorem containsSub_concat (l : List String) (pat : String) (h : pat ∈ l) :
    ContainsSub (strConcat l) pat :=
  containsSub_concat_of l pat pat h (containsSub_self pat)


/-- C2: after the indexer runs, every loaded Section `s` has an entry in
`sections_by_category` under its `category_id`, whose bucket is exactly
the input-ordered list of sections of that category; a section therefore
appears in it exactly once (when the loaded records are pairwise
distinct), and the bucket is a sublist of the input (input order). -/
theorem c2_sections_by_category (ss : List Section) (hnd : ss.Nodup)
    (s : Section) (hs : s ∈ ss) :
    sections_by_category ss s.category_id =
      some (ss.filter (fun t => t.category_id == s.category_id)) ∧
    (ss.filter (fun t => t.category_id == s.category_id)).count s = 1 ∧
    (ss.filter (fun t => t.category_id == s.category_id)).Sublist ss := by
  refine ⟨?_, ?_, List.filter_sublist ss⟩
  · rw [sections_by_category_eq,
      if_pos (List.any_eq_true.mpr ⟨s, hs, by simp⟩)]
  · rw [List.count_filter (by simp)]
    exact List.count_eq_one_of_mem hnd hs

/-- Witness for C2 at a concrete one-section input. -/
theorem c2_witness :
    sections_by_category [wSection] wSection.category_id =
      some ([wSection].filter (fun t => t.category_id == wSection.category_id)) ∧
    ([wSection].filter (fun t => t.category_id == wSection.category_id)).count wSection = 1 ∧
    ([wSection].filter (fun t => t.category_id == wSection.category_id)).Sublist [wSection] :=
  c2_sections_by_category [wSection] (by decide) wSection (by decide)

/-- C3: every loaded Section id is a key of `articles_by_section` (with
the input-ordered list of matching articles, empty when none match); an
article whose `section_id` matches a loaded section appears in that bucket
exactly once (for pairwise-distinct records), in input order; an article
whose `section_id` matches no loaded section appears in no bucket. -/
theorem c3_articles_by_section (ss : List Section) (as : List Article)
    (hnd : as.Nodup) :
    (∀ s ∈ ss, articles_by_section ss as s.id =
        some (as.filter (fun a => a.section_id == s.id))) ∧
    (∀ a ∈ as, (∃ s ∈ ss, s.id = a.section_id) →
        articles_by_section ss as a.section_id =
          some (as.filter (fun b => b.section_id == a.section_id)) ∧
        (as.filter (fun b => b.section_id == a.section_id)).count a = 1 ∧
        (as.filter (fun b => b.section_id == a.section_id)).Sublist as) ∧
    (∀ a : Article, (∀ s ∈ ss, s.id ≠ a.section_id) →
        ∀ c l, articles_by_section ss as c = some l → a ∉ l) := by
  refine ⟨?_, ?_, ?_⟩
  · intro s hs
    rw [articles_by_section_eq, if_pos (List.any_eq_true.mpr ⟨s, hs, by simp⟩)]
  · rintro a ha ⟨s, hs, hid⟩
    refine ⟨?_, ?_, List.filter_sublist as⟩
    · rw [articles_by_section_eq,
        if_pos (List.any_eq_true.mpr ⟨s, hs, by simp [hid]⟩)]
    · rw [List.count_filter (by simp)]
      exact List.count_eq_one_of_mem hnd ha
  · intro a hd c l hl hmem
    rw [articles_by_section_eq] at hl
    by_cases hany : ss.any (fun s => s.id == c) = true
    · rw [if_pos hany] at hl
      injection hl with hl
      subst hl
      obtain ⟨s, hs, hsc⟩ := List.any_eq_true.mp hany
      have h1 : a.section_id = c := by
        simpa using (List.mem_filter.mp hmem).2
      have h2 : s.id = c := by simpa using hsc
      exact hd s hs (h2.trans h1.symm)
    · rw [if_neg hany] at hl
      simp at hl

/-- Witness for C3 at a concrete input with two matching articles and one
dangling article. -/
theorem c3_witness :
    articles_by_section [wSection] [wArticle1, wArticle2, wDangling] wSection.id =
      some ([wArticle1, wArticle2, wDangling].filter
        (fun a => a.section_id == wSection.id)) :=
  (c3_articles_by_section [wSection] [wArticle1, wArticle2, wDangling]
    (by decide)).1 wSection (by decide)

/-- C8: if any of the three `load_json` calls fails (missing, unreadable
or malformed file), the whole run aborts with an error and no output file
listing is produced (the result is `Except.error`, never `Except.ok`). -/
theorem c8_load_failure_aborts (css js : String)
    (catF : Except String (List Category)) (secF : Except String (List Section))
    (artF : Except String (List Article)) (vids : Option (List String))
    (now : String)
    (h : catF.isOk = false ∨ secF.isOk = false ∨ artF.isOk = false) :
    (main_run css js catF secF artF vids now).isOk = false := by
  cases catF with
  | error e => rfl
  | ok cv =>
    cases secF with
    | error e => rfl
    | ok sv =>
      cases artF with
      | error e => rfl
      | ok av =>
        rcases h with h | h | h <;> exact Bool.noConfusion h

/-- Witness for C8: a missing categories file aborts the concrete run. -/
theorem c8_witness :
    (main_run "css" "js" (Except.error "categories.json: file not found")
      (Except.ok []) (Except.ok []) none "2025-01-01 00:00:00").isOk = false :=
  c8_load_failure_aborts _ _ _ _ _ _ _ (Or.inl rfl)


theorem charListLe_refl : ∀ l : List Char, charListLe l l = true
  | [] => rfl
  | a :: as => by simp [charListLe, lt_irrefl, charListLe_refl as]

theorem py_le_refl (s : String) : py_le s s = true :=
  charListLe_refl s.data

theorem updated_ge_total : ∀ a b : Article, updated_ge a b ∨ updated_ge b a := by
  intro a b
  unfold updated_ge
  exact py_le_total b.updated_at a.updated_at

theorem updated_ge_trans :
    ∀ a b c : Article, updated_ge a b → updated_ge b c → updated_ge a c := by
  intro a b c h1 h2
  unfold updated_ge at *
  exact py_le_trans h2 h1

theorem title_le_total : ∀ a b : Article, title_le a b ∨ title_le b a := by
  intro a b
  unfold title_le
  exact py_le_total a.title b.title

theorem title_le_trans :
    ∀ a b c : Article, title_le a b → title_le b c → title_le a c := by
  intro a b c h1 h2
  unfold title_le at *
  exact py_le_trans h1 h2

theorem file_le_total : ∀ a b : String, file_le a b ∨ file_le b a := by
  intro a b
  unfold file_le
  exact py_le_total a b

theorem file_le_trans :
    ∀ a b c : String, file_le a b → file_le b c → file_le a c := by
  intro a b c h1 h2
  unfold file_le at *
  exact py_le_trans h1 h2

/-- C4: the homepage "Popular Articles" list has length
`min 6 (number of loaded articles)`, is sorted by `updated_at` descending,
and is stable: for every timestamp value, its articles appear as a
subsequence of the input restricted to that timestamp, i.e. ties stay in
input order. -/
theorem c4_popular_articles (as : List Article) :
    (recent_articles as).length = min 6 as.length ∧
    List.Pairwise updated_ge (recent_articles as) ∧
    ∀ k : String,
      ((recent_articles as).filter (fun a => a.updated_at == k)).Sublist
        (as.filter (fun a => a.updated_at == k)) := by
  letI : IsTotal Article updated_ge := ⟨updated_ge_total⟩
  letI : IsTrans Article updated_ge := ⟨updated_ge_trans⟩
  refine ⟨?_, ?_, ?_⟩
  · unfold recent_articles
    rw [List.length_take, List.length_insertionSort]
  · exact List.Pairwise.sublist (List.take_sublist _ _)
      (List.sorted_insertionSort updated_ge as)
  · intro k
    have hpw : List.Pairwise updated_ge (as.filter (fun a => a.updated_at == k)) := by
      apply List.pairwise_of_forall_mem_list
      intro a ha b hb
      have ha2 : a.updated_at = k := by simpa using (List.mem_filter.mp ha).2
      have hb2 : b.updated_at = k := by simpa using (List.mem_filter.mp hb).2
      unfold updated_ge
      rw [ha2, hb2]
      exact py_le_refl k
    have hsub : (as.filter (fun a => a.updated_at == k)).Sublist
        (as.insertionSort updated_ge) :=
      List.sublist_insertionSort hpw (List.filter_sublist as)
    have hlen : ((as.insertionSort updated_ge).filter (fun a => a.updated_at == k)).length
        = (as.filter (fun a => a.updated_at == k)).length :=
      ((List.perm_insertionSort updated_ge as).filter _).length_eq
    have h2 : (as.filter (fun a => a.updated_at == k)).Sublist
        ((as.insertionSort updated_ge).filter (fun a => a.updated_at == k)) := by
      have h3 := List.Sublist.filter (fun a => a.updated_at == k) hsub
      simpa [List.filter_filter] using h3
    have heq : (as.insertionSort updated_ge).filter (fun a => a.updated_at == k)
        = as.filter (fun a => a.updated_at == k) :=
      (h2.eq_of_length hlen.symm).symm
    have h4 : ((recent_articles as).filter (fun a => a.updated_at == k)).Sublist
        ((as.insertionSort updated_ge).filter (fun a => a.updated_at == k)) :=
      List.Sublist.filter _ (List.take_sublist _ _)
    rw [heq] at h4
    exact h4

/-- Witness for C4 at a concrete two-article input (the spec example):
the more recently updated article comes first. -/
theorem c4_witness :
    (recent_articles [wArticle1, wArticle2]).length = min 6 2 ∧
    List.Pairwise updated_ge (recent_articles [wArticle1, wArticle2]) ∧
    ∀ k : String,
      ((recent_articles [wArticle1, wArticle2]).filter (fun a => a.updated_at == k)).Sublist
        ([wArticle1, wArticle2].filter (fun a => a.updated_at == k)) :=
  c4_popular_articles [wArticle1, wArticle2]

/-- C5: the articles index lists every loaded article exactly once (same
length, a permutation with equal multiplicities; dangling articles are not
excluded), sorted by title ascending under the case-sensitive code-point
order. -/
theorem c5_articles_index (as : List Article) :
    (articles_index_order as).length = as.length ∧
    (articles_index_order as).Perm as ∧
    (∀ a : Article, (articles_index_order as).count a = as.count a) ∧
    List.Pairwise title_le (articles_index_order as) := by
  letI : IsTotal Article title_le := ⟨title_le_total⟩
  letI : IsTrans Article title_le := ⟨title_le_trans⟩
  exact ⟨List.length_insertionSort _ _, List.perm_insertionSort _ _,
    fun a => (List.perm_insertionSort title_le as).count_eq a,
    List.sorted_insertionSort title_le as⟩

/-- Witness for C5: with the spec example articles, the index contains
both articles with "A Article" sorted before "B Article". -/
theorem c5_witness :
    (articles_index_order [wArticle1, wArticle2]).length = 2 ∧
    articles_index_order [wArticle1, wArticle2] = [wArticle2, wArticle1] :=
  ⟨(c5_articles_index [wArticle1, wArticle2]).1, by decide⟩


/-- C6: unresolved references degrade to the literal label `Unknown`
instead of dropping the page.  First part: an article whose `section_id`
matches no loaded section is absent from every section page article list,
still appears in the articles-index traversal, and its breadcrumb is
`Unknown → Unknown`.  Second part: when the section resolves but its
`category_id` matches no loaded category, only the category slot degrades
to `Unknown`. -/
theorem c6_unknown_placeholders (cs : List Category) (ss : List Section)
    (as : List Article) (a : Article) :
    (a ∈ as → (∀ s ∈ ss, s.id ≠ a.section_id) →
      ((∀ s ∈ ss, a ∉ section_page_articles ss as s) ∧
       breadcrumb cs ss a = "Unknown → Unknown" ∧
       a ∈ articles_index_order as)) ∧
    (∀ s, find_section ss a.section_id = some s →
      (∀ c ∈ cs, c.id ≠ s.category_id) →
      breadcrumb cs ss a = "Unknown → " ++ s.name) := by
  constructor
  · intro ha hd
    have hfind : find_section ss a.section_id = none := by
      unfold find_section
      rw [List.find?_eq_none]
      intro s hs
      simp [hd s hs]
    refine ⟨?_, ?_, ?_⟩
    · intro s hs hmem
      unfold section_page_articles at hmem
      rw [articles_by_section_eq] at hmem
      by_cases hany : ss.any (fun t => t.id == s.id) = true
      · rw [if_pos hany] at hmem
        simp only [Option.getD_some] at hmem
        have h1 : a.section_id = s.id := by
          simpa using (List.mem_filter.mp hmem).2
        exact hd s hs h1.symm
      · rw [if_neg hany] at hmem
        simp at hmem
    · simp only [breadcrumb, hfind]
      rfl
    · unfold articles_index_order
      exact (List.mem_insertionSort title_le).mpr ha
  · intro s hfind hd
    have hcat : find_category cs s.category_id = none := by
      unfold find_category
      rw [List.find?_eq_none]
      intro c hc
      simp [hd c hc]
    simp only [breadcrumb, hfind, hcat]
    rfl

/-- Witness for C6: the dangling concrete article gets the
`Unknown → Unknown` breadcrumb. -/
theorem c6_witness :
    breadcrumb [wCategory] [] wDangling = "Unknown → Unknown" :=
  ((c6_unknown_placeholders [wCategory] [] [wDangling] wDangling).1
    (by decide) (by decide)).2.1

/-- C1 (amended): two runs on the same input agree byte for byte on every
output file except `articles.html`, and agree on `articles.html` as well
exactly when the formatted generation timestamps agree; with equal
timestamps the whole output listing is identical.  (The claim as stated
fails: `create_articles_index` embeds `datetime.now()` in the footer, see
`c1_counterexample`.) -/
theorem c1_idempotent_modulo_timestamp (css js : String) (inp : Input)
    (n1 n2 : String) :
    (run_pipeline css js inp n1).map mask_articles =
      (run_pipeline css js inp n2).map mask_articles ∧
    (n1 = n2 → run_pipeline css js inp n1 = run_pipeline css js inp n2) := by
  constructor
  · simp [run_pipeline, mask_articles]
  · intro h
    rw [h]

/-- Witness for C1 (amended): equal timestamps give equal output on a
concrete input. -/
theorem c1_witness :
    run_pipeline "CSS" "JS" empty_input "2025-01-01 00:00:00" =
      run_pipeline "CSS" "JS" empty_input "2025-01-01 00:00:00" :=
  (c1_idempotent_modulo_timestamp "CSS" "JS" empty_input
    "2025-01-01 00:00:00" "2025-01-01 00:00:00").2 rfl

/-- Counterexample to C1 as stated: on the same fixed input, two runs at
different wall-clock instants produce different output (they differ in the
`articles.html` footer timestamp), so re-running is not byte-identical. -/
theorem c1_counterexample :
    run_pipeline "CSS" "JS" empty_input "2025-01-01 00:00:00" ≠
      run_pipeline "CSS" "JS" empty_input "2025-01-01 00:00:01" := by
  have h0 : ∀ n : String, (run_pipeline "CSS" "JS" empty_input n)[4]? =
      some ("articles.html", create_articles_index [] [] [] n) := fun n => rfl
  intro h
  have h1 := congrArg (fun l => l[4]?) h
  simp only [h0] at h1
  have hpage : create_articles_index [] [] [] "2025-01-01 00:00:00" =
      create_articles_index [] [] [] "2025-01-01 00:00:01" := by
    injection h1 with h2
    exact congrArg Prod.snd h2
  unfold create_articles_index articles_index_footer at hpage
  have hd := congrArg String.data hpage
  simp only [String.data_append, List.append_assoc] at hd
  have hd1 := List.append_cancel_left hd
  have hd2 := List.append_cancel_left hd1
  have hd3 := List.append_cancel_left hd2
  have hd4 := List.append_cancel_left hd3
  have hd5 := List.append_cancel_left hd4
  have hd6 := List.append_cancel_right hd5
  exact absurd hd6 (by decide)

/-- C9 (amended): the videos page renders one card per `.mp4` file of the
videos directory listing (in sorted filename order) - not one card per
arbitrary file; a filename absent from the description table gets an empty
description; a missing directory yields an empty card list; and the
`videos.html` output of the pipeline depends only on the directory
listing, never on the loaded records or the timestamp. -/
theorem c9_videos_page (files : List String) :
    build_videos none = [] ∧
    (build_videos (some files)).length =
      (files.filter (fun f => str_ends_with f ".mp4")).length ∧
    List.Pairwise (fun v w : Video => file_le v.filename w.filename)
      (build_videos (some files)) ∧
    (∀ v ∈ build_videos (some files),
      video_descriptions.lookup v.filename = none → v.description = "") ∧
    (∀ (css js n1 n2 : String) (inp inp2 : Input),
      inp.videosDir = inp2.videosDir →
      (run_pipeline css js inp n1).getLast? =
        (run_pipeline css js inp2 n2).getLast?) := by
  letI : IsTotal String file_le := ⟨file_le_total⟩
  letI : IsTrans String file_le := ⟨file_le_trans⟩
  refine ⟨rfl, ?_, ?_, ?_, ?_⟩
  · simp [build_videos, List.length_insertionSort]
  · unfold build_videos
    simp only []
    rw [List.pairwise_map]
    exact List.sorted_insertionSort file_le _
  · intro v hv hnone
    unfold build_videos at hv
    simp only [] at hv
    obtain ⟨f, hf, rfl⟩ := List.mem_map.mp hv
    simpa using congrArg (fun o => o.getD "") hnone
  · have h : ∀ (css js n : String) (i : Input),
        (run_pipeline css js i n).getLast? =
          some ("videos.html", create_videos_page i.videosDir) := by
      intro css js n i
      unfold run_pipeline
      rw [List.getLast?_append]
      rfl
    intro css js n1 n2 inp inp2 hv
    rw [h, h, hv]

/-- Witness for C9 (amended): concrete evaluation with matching and
non-matching files, including the sorted order of the rendered cards. -/
theorem c9_witness :
    (build_videos (some ["b.mp4", "notes.txt", "a.mp4"])).length =
      (["b.mp4", "notes.txt", "a.mp4"].filter
        (fun f => str_ends_with f ".mp4")).length ∧
    List.Pairwise (fun v w : Video => file_le v.filename w.filename)
      (build_videos (some ["b.mp4", "notes.txt", "a.mp4"])) :=
  ⟨(c9_videos_page ["b.mp4", "notes.txt", "a.mp4"]).2.1,
   (c9_videos_page ["b.mp4", "notes.txt", "a.mp4"]).2.2.1⟩

/-- Counterexample to C9 as stated: a videos directory containing exactly
one file that is not an `.mp4` yields zero cards, not one card per file. -/
theorem c9_counterexample :
    (build_videos (some ["notes.txt"])).length ≠ ["notes.txt"].length := by
  decide


theorem header_contains_search (t d : String) (r : Bool) :
    ContainsSub (get_header_html t d r true) search_box := by
  unfold get_header_html
  exact containsSub_concat _ _ (by simp)

/-- C7: the stylesheet link, the script link, and the four navigation
links of every page use the page's `path_prefix`, which is empty exactly
for the root-level page kinds (homepage and the three indexes) and the
single parent-directory step `../` for the subdirectory page kinds
(category, section and article pages). -/
theorem c7_path_relativity (pt : PageKind) (t d : String) (sf : Bool) :
    (page_is_root pt = true ↔
      (pt = .homepage ∨ pt = .categoriesIndex ∨ pt = .articlesIndex ∨
        pt = .videosIndex)) ∧
    (if page_is_root pt then pathPfx (page_is_root pt) = ""
     else pathPfx (page_is_root pt) = "../") ∧
    ContainsSub (get_header_html t d (page_is_root pt) sf)
      (hrefAttr (pathPfx (page_is_root pt)) "css/style.css") ∧
    (∀ tgt ∈ nav_targets,
      ContainsSub (get_header_html t d (page_is_root pt) sf)
        (hrefAttr (pathPfx (page_is_root pt)) tgt)) ∧
    ContainsSub (get_footer_html (page_is_root pt) true)
      (srcAttr (pathPfx (page_is_root pt)) "js/main.js") := by
  refine ⟨?_, ?_, ?_, ?_, ?_⟩
  · cases pt <;> simp [page_is_root]
  · cases pt <;> simp [page_is_root, pathPfx]
  · unfold get_header_html
    exact containsSub_concat _ _ (by simp)
  · intro tgt htgt
    unfold get_header_html
    simp only [nav_targets, List.mem_cons, List.not_mem_nil, or_false] at htgt
    rcases htgt with rfl | rfl | rfl | rfl <;>
      exact containsSub_concat _ _ (by simp)
  · have hscript : ContainsSub (script_tag (pathPfx (page_is_root pt)))
        (srcAttr (pathPfx (page_is_root pt)) "js/main.js") := by
      unfold script_tag
      exact containsSub_concat _ _ (by simp)
    unfold get_footer_html
    exact containsSub_concat_of _ _ _ (by simp) hscript

/-- Witness for C7: the homepage header carries the unprefixed
`index.html` navigation link. -/
theorem c7_witness :
    ContainsSub
      (get_header_html "Home" "Get help with Userology" (page_is_root .homepage) true)
      (hrefAttr (pathPfx (page_is_root .homepage)) "index.html") :=
  (c7_path_relativity .homepage "Home" "Get help with Userology" true).2.2.2.1
    "index.html" (by simp [nav_targets])

set_option maxRecDepth 20000 in
/-- C10: the homepage, the articles index and every category page carry
the search input fragment; the homepage footer holds exactly one
occurrence of the `js/main.js` script tag and that occurrence is the
commented-out one; the articles-index footer template contains no script
tag on either side of the timestamp; the category-page footer
(`get_footer_html` without `include_script`) has no script tag at all;
and the footer used by `categories.html` and `videos.html`
(`get_footer_html` with `include_script=True` at the root) contains the
active script tag, which those two pages therefore carry. -/
theorem c10_search_and_script (cs : List Category) (ss : List Section)
    (as : List Article) (c : Category) (vl : Option (List String))
    (now : String) :
    ContainsSub (create_homepage ss as) search_box ∧
    ContainsSub (create_articles_index cs ss as now) search_box ∧
    ContainsSub (create_category_page ss as c) search_box ∧
    countOccur homepage_footer active_script_tag = 1 ∧
    countOccur homepage_footer commented_script_tag = 1 ∧
    ContainsSub (create_homepage ss as) commented_script_tag ∧
    (∃ pre post, articles_index_footer now = pre ++ now ++ post ∧
      countOccur pre "<script" = 0 ∧ countOccur post "<script" = 0) ∧
    countOccur (get_footer_html false false) "<script" = 0 ∧
    countOccur (get_footer_html true true) active_script_tag = 1 ∧
    ContainsSub (create_categories_index ss as) active_script_tag ∧
    ContainsSub (create_videos_page vl) active_script_tag := by
  refine ⟨?_, ?_, ?_, by decide, by decide, ?_, ?_, by decide, by decide, ?_, ?_⟩
  · unfold create_homepage
    iterate 6 apply ContainsSub.appR
    exact header_contains_search _ _ _
  · unfold create_articles_index
    iterate 4 apply ContainsSub.appR
    exact header_contains_search _ _ _
  · unfold create_category_page
    iterate 12 apply ContainsSub.appR
    exact header_contains_search _ _ _
  · unfold create_homepage
    apply ContainsSub.appL
    unfold ContainsSub
    decide
  · refine ⟨articles_index_foot_pre, articles_index_foot_post, rfl, by decide, by decide⟩
  · unfold create_categories_index
    apply ContainsSub.appL
    unfold ContainsSub
    decide
  · unfold create_videos_page
    apply ContainsSub.appL
    unfold ContainsSub
    decide

/-- Witness for C10: concrete check that the homepage footer has exactly
one script-tag occurrence. -/
theorem c10_witness :
    countOccur homepage_footer active_script_tag = 1 :=
  (c10_search_and_script [] [] [] wCategory none "2025-01-01 00:00:00").2.2.2.1

end HelpCenter
